import Mathlib

/-!
Shallow embedding of the rate-limiting engine in
`samples/python/extensions/ratelimiter/src/ratelimiter_ext/limiters.py`.

Modelling conventions:
* Python floats (timestamps, token counts) are modelled as exact rationals `ℚ`;
  `time.time()` is an explicit `now : ℚ` argument to every check.
* Python `int` is `ℤ`; `int(x)` (truncation toward zero) is `pyInt`.
* A limiter instance's per-key mutable state is threaded explicitly: every
  `check_limit` takes the state for the key under consideration and returns the
  new state together with the outcome.  A key not yet in the per-key dict is
  `Option.none` (resp. the empty deque for the sliding window, whose `reset`
  clears the deque rather than deleting the key).
* Python exceptions (`ZeroDivisionError` from `limit / window` or `now // window`,
  `IndexError` from `deque[0]` on an empty deque, `ValueError` from `min()` on an
  empty sequence) are modelled by `Except PyErr`.  The returned state is the
  state at the moment the exception propagates (Python mutates in place).
-/

namespace RatelimiterExt

/-- Python `int(x)` on a float: truncation toward zero. -/
def pyInt (x : ℚ) : ℤ := if 0 ≤ x then ⌊x⌋ else ⌈x⌉

/-- The Python exceptions the engine can actually raise. -/
inductive PyErr
  | zeroDivisionError
  | indexError
  | valueError
deriving DecidableEq, Repr

/-- `RateLimitResult` (limiters.py lines 15-32): result of a rate limit check. -/
structure RateLimitResult where
  allowed : Bool
  remaining : ℤ := 0
  reset_time : Option ℚ := none
  retry_after : Option ℚ := none
  limit_type : String := "unknown"
deriving DecidableEq, Repr

/-- Per-key bucket state of `TokenBucketLimiter`: `{'tokens': ..., 'last_update': ...}`. -/
structure Bucket where
  tokens : ℚ
  last_update : ℚ
deriving DecidableEq, Repr

/-- `TokenBucketLimiter.check_limit` (limiters.py lines 75-110) for one key.
`mult` is the constructor argument `capacity_multiplier` (default 2.0);
`st` is the bucket stored for the key (`none` when the key is unseen). -/
def TokenBucketLimiter.check_limit (mult : ℚ) (st : Option Bucket) (now : ℚ)
    (limit window : ℤ) : Except PyErr RateLimitResult × Option Bucket :=
  if window = 0 then (Except.error PyErr.zeroDivisionError, st)
  else
    let rate : ℚ := (limit : ℚ) / (window : ℚ)
    let capacity : ℤ := pyInt ((limit : ℚ) * mult)
    let bucket := st.getD { tokens := (capacity : ℚ), last_update := now }
    let time_elapsed := now - bucket.last_update
    let tokens_to_add := time_elapsed * rate
    let tokens1 := min (capacity : ℚ) (bucket.tokens + tokens_to_add)
    if 1 ≤ tokens1 then
      (Except.ok { allowed := true, remaining := pyInt (tokens1 - 1),
                   limit_type := "token_bucket" },
       some { tokens := tokens1 - 1, last_update := now })
    else if rate = 0 then
      (Except.error PyErr.zeroDivisionError,
       some { tokens := tokens1, last_update := now })
    else
      (Except.ok { allowed := false, remaining := 0,
                   retry_after := some ((1 - tokens1) / rate),
                   limit_type := "token_bucket" },
       some { tokens := tokens1, last_update := now })

/-- `TokenBucketLimiter.reset` (limiters.py lines 112-116): deletes the key. -/
def TokenBucketLimiter.reset (_st : Option Bucket) : Option Bucket := none

/-- The expired-entry removal loop of `SlidingWindowLimiter.check_limit`
(lines 148-149): pop from the left while the front entry is `≤ window_start`. -/
def slidingTrim (window_start : ℚ) : List ℚ → List ℚ
  | [] => []
  | t :: rest => if t ≤ window_start then slidingTrim window_start rest else t :: rest

/-- `SlidingWindowLimiter.check_limit` (limiters.py lines 136-178) for one key.
`maxE` is the constructor argument `max_entries_per_key` (default 10000);
`st` is the deque of timestamps for the key, oldest first (a fresh key is `[]`). -/
def SlidingWindowLimiter.check_limit (maxE : ℕ) (st : List ℚ) (now : ℚ)
    (limit window : ℤ) : Except PyErr RateLimitResult × List ℚ :=
  let window_start := now - (window : ℚ)
  let request_times := slidingTrim window_start st
  let current_count : ℤ := request_times.length
  if current_count < limit then
    let appended := request_times ++ [now]
    let final := if maxE < appended.length then appended.tail else appended
    (Except.ok { allowed := true, remaining := limit - current_count - 1,
                 reset_time := some (now + (window : ℚ)),
                 limit_type := "sliding_window" },
     final)
  else
    match request_times with
    | [] => (Except.error PyErr.indexError, request_times)
    | oldest :: rest =>
      (Except.ok { allowed := false, remaining := 0,
                   retry_after := some (max 0 (oldest + (window : ℚ) - now + 1/1000)),
                   reset_time := some (oldest + (window : ℚ)),
                   limit_type := "sliding_window" },
       oldest :: rest)

/-- `SlidingWindowLimiter.reset` (limiters.py lines 180-184): clears the deque. -/
def SlidingWindowLimiter.reset (_st : List ℚ) : List ℚ := []

/-- Per-key state of `FixedWindowLimiter`: `{'count': ..., 'window_start': ...}`.
`window_start = int(now // window) * window` is an integer. -/
structure FixedWindowState where
  count : ℤ
  window_start : ℤ
deriving DecidableEq, Repr

/-- `FixedWindowLimiter.check_limit` (limiters.py lines 199-234) for one key. -/
def FixedWindowLimiter.check_limit (st : Option FixedWindowState) (now : ℚ)
    (limit window : ℤ) : Except PyErr RateLimitResult × Option FixedWindowState :=
  if window = 0 then (Except.error PyErr.zeroDivisionError, st)
  else
    let window_start : ℤ := ⌊now / (window : ℚ)⌋ * window
    let data := st.getD { count := 0, window_start := window_start }
    let data1 := if data.window_start ≠ window_start
                 then { count := 0, window_start := window_start } else data
    if data1.count < limit then
      (Except.ok { allowed := true, remaining := limit - (data1.count + 1),
                   reset_time := some ((window_start + window : ℤ) : ℚ),
                   limit_type := "fixed_window" },
       some { count := data1.count + 1, window_start := window_start })
    else
      (Except.ok { allowed := false, remaining := 0,
                   retry_after := some (max 0 (((window_start + window : ℤ) : ℚ) - now)),
                   reset_time := some ((window_start + window : ℤ) : ℚ),
                   limit_type := "fixed_window" },
       some data1)

/-- `FixedWindowLimiter.reset` (limiters.py lines 236-240): deletes the key. -/
def FixedWindowLimiter.reset (_st : Option FixedWindowState) :
    Option FixedWindowState := none

/-- A concrete sub-strategy of a `CompositeLimiter`, with its per-key state. -/
inductive SubLimiter
  | tokenBucket (mult : ℚ) (st : Option Bucket)
  | slidingWindow (maxE : ℕ) (st : List ℚ)
  | fixedWindow (st : Option FixedWindowState)
deriving DecidableEq, Repr

/-- Dispatch `check_limit` on a sub-strategy (the dynamic dispatch
`limiter.check_limit(key, limit, window)` at limiters.py line 263). -/
def subCheck : SubLimiter → ℚ → ℤ → ℤ → Except PyErr RateLimitResult × SubLimiter
  | .tokenBucket mult st, now, l, w =>
    let p := TokenBucketLimiter.check_limit mult st now l w
    (p.1, .tokenBucket mult p.2)
  | .slidingWindow m st, now, l, w =>
    let p := SlidingWindowLimiter.check_limit m st now l w
    (p.1, .slidingWindow m p.2)
  | .fixedWindow st, now, l, w =>
    let p := FixedWindowLimiter.check_limit st now l w
    (p.1, .fixedWindow p.2)

/-- `min(r.remaining for r in results if r.remaining is not None)` at
limiters.py lines 272-274; `remaining` is always an int, so the filter keeps
everything, and `min` of an empty sequence raises `ValueError` (`none` here). -/
def minRemaining (results : List RateLimitResult) : Option ℤ :=
  (results.map (fun r => r.remaining)).min?

/-- The loop body of `CompositeLimiter.check_limit` (limiters.py lines 258-279):
walk the sub-strategies in iteration order, accumulating results; short-circuit
on the first denial, rewriting its `limit_type`; if all allow, return the
minimum `remaining`. -/
def compositeGo (now : ℚ) (l w : ℤ) :
    List SubLimiter → List RateLimitResult →
      Except PyErr RateLimitResult × List SubLimiter
  | [], results =>
    match minRemaining results with
    | none => (Except.error PyErr.valueError, [])
    | some m =>
      (Except.ok { allowed := true, remaining := m, limit_type := "composite" }, [])
  | s :: restSubs, results =>
    match subCheck s now l w with
    | (Except.error e, s1) => (Except.error e, s1 :: restSubs)
    | (Except.ok r, s1) =>
      if r.allowed then
        let p := compositeGo now l w restSubs (results ++ [r])
        (p.1, s1 :: p.2)
      else
        (Except.ok { r with limit_type := "composite_" ++ r.limit_type },
         s1 :: restSubs)

/-- `CompositeLimiter.check_limit` (limiters.py lines 258-279) over the listed
sub-strategies, for one key. -/
def CompositeLimiter.check_limit (subs : List SubLimiter) (now : ℚ) (l w : ℤ) :
    Except PyErr RateLimitResult × List SubLimiter :=
  compositeGo now l w subs []

/-- Any of the four strategies of limiters.py, with its per-key state. -/
inductive Limiter
  | single (s : SubLimiter)
  | composite (subs : List SubLimiter)
deriving DecidableEq, Repr

/-- Uniform `check_limit` over all four strategies. -/
def Limiter.check_limit : Limiter → ℚ → ℤ → ℤ → Except PyErr RateLimitResult × Limiter
  | .single s, now, l, w =>
    let p := subCheck s now l w
    (p.1, .single p.2)
  | .composite subs, now, l, w =>
    let p := CompositeLimiter.check_limit subs now l w
    (p.1, .composite p.2)

/-- Iterate `SlidingWindowLimiter.check_limit` over a list of call times. -/
def SlidingWindowLimiter.run (maxE : ℕ) (st : List ℚ) (times : List ℚ)
    (l w : ℤ) : List (Except PyErr RateLimitResult) × List ℚ :=
  match times with
  | [] => ([], st)
  | t :: ts =>
    let p := SlidingWindowLimiter.check_limit maxE st t l w
    let q := SlidingWindowLimiter.run maxE p.2 ts l w
    (p.1 :: q.1, q.2)

/-- Iterate `FixedWindowLimiter.check_limit` over a list of call times. -/
def FixedWindowLimiter.run (st : Option FixedWindowState) (times : List ℚ)
    (l w : ℤ) : List (Except PyErr RateLimitResult) × Option FixedWindowState :=
  match times with
  | [] => ([], st)
  | t :: ts =>
    let p := FixedWindowLimiter.check_limit st t l w
    let q := FixedWindowLimiter.run p.2 ts l w
    (p.1 :: q.1, q.2)

/-! ### Helper lemmas -/

lemma pyInt_intCast (n : ℤ) : pyInt ((n : ℤ) : ℚ) = n := by
  unfold pyInt
  split_ifs with h
  · exact Int.floor_intCast n
  · exact Int.ceil_intCast n

/-- A successful `TokenBucketLimiter.check_limit` result is one of the two
record shapes built at limiters.py lines 98-102 and 105-110. -/
lemma tokenBucket_ok_cases (mult : ℚ) (st : Option Bucket) (now : ℚ)
    (l w : ℤ) (r : RateLimitResult) (st' : Option Bucket)
    (h : TokenBucketLimiter.check_limit mult st now l w = (Except.ok r, st')) :
    (∃ rem, r = { allowed := true, remaining := rem,
                  limit_type := "token_bucket" }) ∨
    (∃ ra, r = { allowed := false, remaining := 0, retry_after := some ra,
                 limit_type := "token_bucket" }) := by
  unfold TokenBucketLimiter.check_limit at h
  split at h
  · simp at h
  · dsimp only at h
    split at h
    · left
      have h1 := (Prod.ext_iff.mp h).1
      simp only [Except.ok.injEq] at h1
      exact ⟨_, h1.symm⟩
    · split at h
      · simp at h
      · right
        have h1 := (Prod.ext_iff.mp h).1
        simp only [Except.ok.injEq] at h1
        exact ⟨_, h1.symm⟩

/-- A successful `SlidingWindowLimiter.check_limit` result is one of the two
record shapes built at limiters.py lines 159-164 and 172-178. -/
lemma sliding_ok_cases (maxE : ℕ) (st : List ℚ) (now : ℚ)
    (l w : ℤ) (r : RateLimitResult) (st' : List ℚ)
    (h : SlidingWindowLimiter.check_limit maxE st now l w = (Except.ok r, st')) :
    (∃ rem rt, r = { allowed := true, remaining := rem, reset_time := some rt,
                     limit_type := "sliding_window" }) ∨
    (∃ ra rt, r = { allowed := false, remaining := 0, reset_time := some rt,
                    retry_after := some ra,
                    limit_type := "sliding_window" }) := by
  unfold SlidingWindowLimiter.check_limit at h
  dsimp only at h
  split at h
  · left
    have h1 := (Prod.ext_iff.mp h).1
    simp only [Except.ok.injEq] at h1
    exact ⟨_, _, h1.symm⟩
  · split at h
    · simp at h
    · right
      have h1 := (Prod.ext_iff.mp h).1
      simp only [Except.ok.injEq] at h1
      exact ⟨_, _, h1.symm⟩

/-- A successful `FixedWindowLimiter.check_limit` result is one of the two
record shapes built at limiters.py lines 220-225 and 228-234. -/
lemma fixed_ok_cases (st : Option FixedWindowState) (now : ℚ)
    (l w : ℤ) (r : RateLimitResult) (st' : Option FixedWindowState)
    (h : FixedWindowLimiter.check_limit st now l w = (Except.ok r, st')) :
    (∃ rem rt, r = { allowed := true, remaining := rem, reset_time := some rt,
                     limit_type := "fixed_window" }) ∨
    (∃ ra rt, r = { allowed := false, remaining := 0, reset_time := some rt,
                    retry_after := some ra,
                    limit_type := "fixed_window" }) := by
  unfold FixedWindowLimiter.check_limit at h
  split at h
  · simp at h
  · dsimp only at h
    split at h <;> split at h <;>
      first
        | (left
           have h1 := (Prod.ext_iff.mp h).1
           simp only [Except.ok.injEq] at h1
           exact ⟨_, _, h1.symm⟩)
        | (right
           have h1 := (Prod.ext_iff.mp h).1
           simp only [Except.ok.injEq] at h1
           exact ⟨_, _, h1.symm⟩)

/-! ### C1: no InvalidConfiguration validation exists -/

/-- C1 counterexample: the claim says `check_limit` with `limit ≤ 0` or
`window ≤ 0` raises an `InvalidConfiguration` error and never returns a
Decision.  In fact `FixedWindowLimiter.check_limit` with `window = -10` on a
fresh key returns an ordinary Decision, and a permissive `allowed=true` one. -/
theorem c1_counterexample :
    (FixedWindowLimiter.check_limit none 25 5 (-10)).1 =
      Except.ok { allowed := true, remaining := 4, reset_time := some 20,
                  limit_type := "fixed_window" } := by
  norm_num [FixedWindowLimiter.check_limit]

/-- C1 amended: no strategy validates `limit`/`window` and no
`InvalidConfiguration` error exists.  (a) `FixedWindowLimiter.check_limit`
with any `window ≠ 0` returns an ordinary Decision, even for non-positive
`limit` or negative `window`; (b) `window = 0` makes
`TokenBucketLimiter.check_limit` raise `ZeroDivisionError` (from
`limit / window`) with the per-key state untouched; (c) `limit = 0` (with a
valid window) makes `TokenBucketLimiter.check_limit` raise
`ZeroDivisionError` only after creating and mutating the key's bucket state. -/
theorem c1_no_validation :
    (∀ (st : Option FixedWindowState) (now : ℚ) (limit window : ℤ),
        window ≠ 0 →
        ∃ r st', FixedWindowLimiter.check_limit st now limit window =
          (Except.ok r, st')) ∧
    (∀ (mult : ℚ) (st : Option Bucket) (now : ℚ) (limit : ℤ),
        TokenBucketLimiter.check_limit mult st now limit 0 =
          (Except.error PyErr.zeroDivisionError, st)) ∧
    (∀ now : ℚ, TokenBucketLimiter.check_limit 2 none now 0 1 =
        (Except.error PyErr.zeroDivisionError,
         some { tokens := 0, last_update := now })) := by
  refine ⟨?_, ?_, ?_⟩
  · intro st now limit window hw
    unfold FixedWindowLimiter.check_limit
    rw [if_neg hw]
    dsimp only
    split_ifs <;> exact ⟨_, _, rfl⟩
  · intro mult st now limit
    unfold TokenBucketLimiter.check_limit
    rw [if_pos rfl]
  · intro now
    norm_num [TokenBucketLimiter.check_limit, pyInt]

/-- C1 witness: instantiating the amended theorem. -/
theorem c1_witness :
    ∃ r st', FixedWindowLimiter.check_limit none 25 5 (-10) =
      (Except.ok r, st') :=
  c1_no_validation.1 none 25 5 (-10) (by norm_num)

/-! ### C3: TokenBucket never sets reset_time -/

/-- C3 counterexample: the claim says every TokenBucket Decision carries
`reset_time = now + (capacity - tokens)/rate` (here `0 + (20 - 19)/(1/6) = 6`).
In fact the code never passes `reset_time`, so it is `none`, not `some 6`. -/
theorem c3_counterexample :
    (TokenBucketLimiter.check_limit 2 none 0 10 60).1 =
      Except.ok { allowed := true, remaining := 19, reset_time := none,
                  limit_type := "token_bucket" } ∧
    (none : Option ℚ) ≠ some 6 := by
  constructor
  · norm_num [TokenBucketLimiter.check_limit, pyInt]
  · simp

/-- C3 amended: every Decision returned by `TokenBucketLimiter.check_limit`
has `reset_time` absent (`none`), on the allowed and the denied branch alike. -/
theorem c3_reset_time_absent (mult : ℚ) (st : Option Bucket) (now : ℚ)
    (limit window : ℤ) (r : RateLimitResult) (st' : Option Bucket)
    (h : TokenBucketLimiter.check_limit mult st now limit window =
      (Except.ok r, st')) :
    r.reset_time = none := by
  rcases tokenBucket_ok_cases mult st now limit window r st' h with
    ⟨rem, rfl⟩ | ⟨ra, rfl⟩ <;> rfl

/-- C3 witness: instantiating the amended theorem at a concrete allowed call. -/
theorem c3_witness :
    ({ allowed := true, remaining := 19,
       limit_type := "token_bucket" } : RateLimitResult).reset_time = none :=
  c3_reset_time_absent 2 none 0 10 60 _ (some { tokens := 19, last_update := 0 })
    (by norm_num [TokenBucketLimiter.check_limit, pyInt])

/-! ### C2: Decision invariant -/

/-- Decision invariant for a single sub-strategy result. -/
lemma subCheck_invariant (s : SubLimiter) (now : ℚ) (l w : ℤ)
    (r : RateLimitResult) (s' : SubLimiter)
    (h : subCheck s now l w = (Except.ok r, s')) :
    (r.allowed = false → r.remaining = 0) ∧
    (r.allowed = true → r.retry_after = none) := by
  cases s with
  | tokenBucket mult st =>
    simp only [subCheck] at h
    have h1 := (Prod.ext_iff.mp h).1
    dsimp only at h1
    rcases tokenBucket_ok_cases mult st now l w r
        (TokenBucketLimiter.check_limit mult st now l w).2
        (Prod.ext_iff.mpr ⟨h1, rfl⟩) with ⟨rem, rfl⟩ | ⟨ra, rfl⟩
    · exact ⟨by simp, fun _ => rfl⟩
    · exact ⟨fun _ => rfl, by simp⟩
  | slidingWindow m st =>
    simp only [subCheck] at h
    have h1 := (Prod.ext_iff.mp h).1
    dsimp only at h1
    rcases sliding_ok_cases m st now l w r
        (SlidingWindowLimiter.check_limit m st now l w).2
        (Prod.ext_iff.mpr ⟨h1, rfl⟩) with ⟨rem, rt, rfl⟩ | ⟨ra, rt, rfl⟩
    · exact ⟨by simp, fun _ => rfl⟩
    · exact ⟨fun _ => rfl, by simp⟩
  | fixedWindow st =>
    simp only [subCheck] at h
    have h1 := (Prod.ext_iff.mp h).1
    dsimp only at h1
    rcases fixed_ok_cases st now l w r
        (FixedWindowLimiter.check_limit st now l w).2
        (Prod.ext_iff.mpr ⟨h1, rfl⟩) with ⟨rem, rt, rfl⟩ | ⟨ra, rt, rfl⟩
    · exact ⟨by simp, fun _ => rfl⟩
    · exact ⟨fun _ => rfl, by simp⟩

/-- Decision invariant is preserved through the composite walk. -/
lemma compositeGo_invariant (now : ℚ) (l w : ℤ) :
    ∀ (subs : List SubLimiter) (results : List RateLimitResult)
      (r : RateLimitResult) (subs' : List SubLimiter),
      compositeGo now l w subs results = (Except.ok r, subs') →
      (r.allowed = false → r.remaining = 0) ∧
      (r.allowed = true → r.retry_after = none)
  | [], results, r, subs', h => by
    rw [compositeGo] at h
    split at h
    · simp at h
    · have h1 := (Prod.ext_iff.mp h).1
      simp only [Except.ok.injEq] at h1
      subst h1
      exact ⟨by simp, fun _ => rfl⟩
  | s :: rest, results, r, subs', h => by
    rw [compositeGo] at h
    split at h
    · simp at h
    · rename_i rr s1 heq
      dsimp only at h
      split at h
      · have h1 := (Prod.ext_iff.mp h).1
        dsimp only at h1
        exact compositeGo_invariant now l w rest (results ++ [rr]) r
          (compositeGo now l w rest (results ++ [rr])).2
          (Prod.ext_iff.mpr ⟨h1, rfl⟩)
      · rename_i hall
        have h1 := (Prod.ext_iff.mp h).1
        simp only [Except.ok.injEq] at h1
        subst h1
        have hinv := subCheck_invariant s now l w rr s1 heq
        have hfalse : rr.allowed = false := by
          revert hall
          cases rr.allowed <;> simp
        refine ⟨fun _ => ?_, fun htrue => ?_⟩
        · exact hinv.1 hfalse
        · exact absurd htrue (by simp [hfalse])

/-- C2: every Decision returned by `check_limit` of any of the four
strategies (the three base strategies or a composite of them) satisfies:
`allowed = false → remaining = 0` and `allowed = true → retry_after` absent. -/
theorem c2_decision_invariant (L : Limiter) (now : ℚ) (l w : ℤ)
    (r : RateLimitResult) (L' : Limiter)
    (h : Limiter.check_limit L now l w = (Except.ok r, L')) :
    (r.allowed = false → r.remaining = 0) ∧
    (r.allowed = true → r.retry_after = none) := by
  cases L with
  | single s =>
    simp only [Limiter.check_limit] at h
    have h1 := (Prod.ext_iff.mp h).1
    dsimp only at h1
    exact subCheck_invariant s now l w r (subCheck s now l w).2
      (Prod.ext_iff.mpr ⟨h1, rfl⟩)
  | composite subs =>
    simp only [Limiter.check_limit, CompositeLimiter.check_limit] at h
    have h1 := (Prod.ext_iff.mp h).1
    dsimp only at h1
    exact compositeGo_invariant now l w subs [] r
      (compositeGo now l w subs []).2 (Prod.ext_iff.mpr ⟨h1, rfl⟩)

/-- C2 witness: the invariant theorem applied to a concrete sliding-window
Decision. -/
theorem c2_witness :
    (({ allowed := true, remaining := 2, reset_time := some 10,
        limit_type := "sliding_window" } : RateLimitResult).allowed = false →
      ({ allowed := true, remaining := 2, reset_time := some 10,
         limit_type := "sliding_window" } : RateLimitResult).remaining = 0) ∧
    (({ allowed := true, remaining := 2, reset_time := some 10,
        limit_type := "sliding_window" } : RateLimitResult).allowed = true →
      ({ allowed := true, remaining := 2, reset_time := some 10,
         limit_type := "sliding_window" } : RateLimitResult).retry_after = none) :=
  c2_decision_invariant (.single (.slidingWindow 10000 [])) 0 3 10 _
    (.single (.slidingWindow 10000 [0]))
    (by norm_num [Limiter.check_limit, subCheck,
      SlidingWindowLimiter.check_limit, slidingTrim])

/-! ### C4: reset followed by a first check -/

/-- C4 counterexample: the claim says the first-consumption Decision after a
`reset` has `remaining == limit - 1`.  With the default
`capacity_multiplier = 2.0`, a reset key checked at `limit=10, window=60`
returns `remaining = 19` (`= int(limit*2.0) - 1`), not `10 - 1 = 9`. -/
theorem c4_counterexample :
    (TokenBucketLimiter.check_limit 2
        (TokenBucketLimiter.reset (some { tokens := 0, last_update := 0 }))
        0 10 60).1 =
      Except.ok { allowed := true, remaining := 19,
                  limit_type := "token_bucket" } ∧
    (19 : ℤ) ≠ 10 - 1 := by
  constructor
  · norm_num [TokenBucketLimiter.check_limit, TokenBucketLimiter.reset, pyInt]
  · norm_num

/-- C4 amended: for `TokenBucketLimiter` (default `capacity_multiplier = 2.0`),
`reset` followed immediately by a check behaves exactly like a first-ever
check on a fresh key, and that first-consumption Decision has
`remaining = int(limit * 2.0) - 1 = 2*limit - 1` (not `limit - 1`). -/
theorem c4_reset_then_check (st : Option Bucket) (now : ℚ) (limit window : ℤ)
    (h1 : 1 ≤ limit) (h2 : window ≠ 0) :
    TokenBucketLimiter.check_limit 2 (TokenBucketLimiter.reset st) now limit window =
      TokenBucketLimiter.check_limit 2 none now limit window ∧
    (TokenBucketLimiter.check_limit 2 none now limit window).1 =
      Except.ok { allowed := true, remaining := 2 * limit - 1,
                  limit_type := "token_bucket" } := by
  refine ⟨rfl, ?_⟩
  have hcap : pyInt ((limit : ℚ) * 2) = 2 * limit := by
    have hc : ((limit : ℚ) * 2) = ((2 * limit : ℤ) : ℚ) := by push_cast; ring
    rw [hc, pyInt_intCast]
  have hge : (1 : ℚ) ≤ ((2 * limit : ℤ) : ℚ) := by
    have hz : (1 : ℤ) ≤ 2 * limit := by omega
    exact_mod_cast hz
  have hrem : pyInt (((2 * limit : ℤ) : ℚ) - 1) = 2 * limit - 1 := by
    have hc : (((2 * limit : ℤ) : ℚ) - 1) = ((2 * limit - 1 : ℤ) : ℚ) := by
      push_cast; ring
    rw [hc, pyInt_intCast]
  unfold TokenBucketLimiter.check_limit
  rw [if_neg h2]
  dsimp only [Option.getD]
  rw [hcap]
  simp only [sub_self, zero_mul, add_zero, min_self]
  rw [if_pos hge, hrem]

/-- C4 witness: the amended theorem at `limit=10, window=60` on an
accumulated key. -/
theorem c4_witness :
    TokenBucketLimiter.check_limit 2
        (TokenBucketLimiter.reset (some { tokens := 0, last_update := 0 }))
        0 10 60 =
      TokenBucketLimiter.check_limit 2 none 0 10 60 ∧
    (TokenBucketLimiter.check_limit 2 none 0 10 60).1 =
      Except.ok { allowed := true, remaining := 2 * 10 - 1,
                  limit_type := "token_bucket" } :=
  c4_reset_then_check (some { tokens := 0, last_update := 0 }) 0 10 60
    (by norm_num) (by norm_num)

/-! ### C5: sliding window exactness scenario -/

/-- C5: for `SlidingWindowLimiter` (default `max_entries_per_key = 10000`)
with `limit=3, window=10` on a fresh key, checks at `t=0,1,2` are all allowed;
a 4th at `t=3` is denied with `retry_after = 7 + 1/1000` (≈ 7 plus the small
buffer) ; a 5th at `t=11` is allowed again after old timestamps age out. -/
theorem c5_sliding_window_exactness :
    SlidingWindowLimiter.run 10000 [] [0, 1, 2, 3, 11] 3 10 =
      ([Except.ok { allowed := true, remaining := 2, reset_time := some 10,
                    limit_type := "sliding_window" },
        Except.ok { allowed := true, remaining := 1, reset_time := some 11,
                    limit_type := "sliding_window" },
        Except.ok { allowed := true, remaining := 0, reset_time := some 12,
                    limit_type := "sliding_window" },
        Except.ok { allowed := false, remaining := 0, reset_time := some 10,
                    retry_after := some (7 + 1/1000),
                    limit_type := "sliding_window" },
        Except.ok { allowed := true, remaining := 1, reset_time := some 21,
                    limit_type := "sliding_window" }],
       [2, 11]) := by
  norm_num [SlidingWindowLimiter.run, SlidingWindowLimiter.check_limit,
    slidingTrim]

/-! ### C6: fixed window boundary artifact scenario -/

/-- C6: for `FixedWindowLimiter` with `limit=5, window=10` on a fresh key,
5 checks at `t=9.9` are all allowed, a 6th at `t=9.9` is denied, and 5 more
at `t=10.1` (the next epoch-aligned window, `window_start = ⌊now/window⌋*window`)
are all allowed again: `2×limit` requests succeed in a 0.2s span. -/
theorem c6_fixed_window_boundary :
    FixedWindowLimiter.run none
        [99/10, 99/10, 99/10, 99/10, 99/10, 99/10,
         101/10, 101/10, 101/10, 101/10, 101/10] 5 10 =
      ([Except.ok { allowed := true, remaining := 4, reset_time := some 10,
                    limit_type := "fixed_window" },
        Except.ok { allowed := true, remaining := 3, reset_time := some 10,
                    limit_type := "fixed_window" },
        Except.ok { allowed := true, remaining := 2, reset_time := some 10,
                    limit_type := "fixed_window" },
        Except.ok { allowed := true, remaining := 1, reset_time := some 10,
                    limit_type := "fixed_window" },
        Except.ok { allowed := true, remaining := 0, reset_time := some 10,
                    limit_type := "fixed_window" },
        Except.ok { allowed := false, remaining := 0, reset_time := some 10,
                    retry_after := some (1/10),
                    limit_type := "fixed_window" },
        Except.ok { allowed := true, remaining := 4, reset_time := some 20,
                    limit_type := "fixed_window" },
        Except.ok { allowed := true, remaining := 3, reset_time := some 20,
                    limit_type := "fixed_window" },
        Except.ok { allowed := true, remaining := 2, reset_time := some 20,
                    limit_type := "fixed_window" },
        Except.ok { allowed := true, remaining := 1, reset_time := some 20,
                    limit_type := "fixed_window" },
        Except.ok { allowed := true, remaining := 0, reset_time := some 20,
                    limit_type := "fixed_window" }],
       some { count := 5, window_start := 10 }) := by
  norm_num [FixedWindowLimiter.run, FixedWindowLimiter.check_limit]

/-! ### C7: composite short-circuit -/

/-- The composite walk short-circuits at the first denying sub-strategy:
sub-strategies before it have their state updated, the denier's Decision is
returned with `limit_type` prefixed, and later sub-strategies are untouched. -/
lemma compositeGo_short_circuit (now : ℚ) (l w : ℤ) (d : SubLimiter)
    (post : List SubLimiter) (r : RateLimitResult) (d' : SubLimiter)
    (hd : subCheck d now l w = (Except.ok r, d')) (hr : r.allowed = false) :
    ∀ (pre : List SubLimiter) (results : List RateLimitResult),
      (∀ s ∈ pre, ∃ rs s1, subCheck s now l w = (Except.ok rs, s1) ∧
        rs.allowed = true) →
      compositeGo now l w (pre ++ d :: post) results =
        (Except.ok { r with limit_type := "composite_" ++ r.limit_type },
         pre.map (fun s => (subCheck s now l w).2) ++ d' :: post)
  | [], results, hpre => by
    rw [List.nil_append, compositeGo, hd]
    dsimp only
    rw [if_neg (by simp [hr])]
    simp
  | s :: pre', results, hpre => by
    obtain ⟨rs, s1, heq, hallow⟩ := hpre s (List.mem_cons_self s pre')
    rw [List.cons_append, compositeGo, heq]
    dsimp only
    rw [if_pos hallow]
    rw [compositeGo_short_circuit now l w d post r d' hd hr pre'
      (results ++ [rs]) (fun x hx => hpre x (List.mem_cons_of_mem s hx))]
    simp [heq]

/-- C7: when the sub-strategies before `d` all allow and `d` denies with
Decision `r`, `CompositeLimiter.check_limit` returns `r` with `limit_type`
rewritten to `"composite_<original>"`; the sub-strategies after `d` are not
invoked (their state is unchanged in the result), while those before `d`
have consumed quota (their state is the post-check state). -/
theorem c7_composite_short_circuit (pre : List SubLimiter) (d : SubLimiter)
    (post : List SubLimiter) (now : ℚ) (l w : ℤ) (r : RateLimitResult)
    (d' : SubLimiter)
    (hpre : ∀ s ∈ pre, ∃ rs s1, subCheck s now l w = (Except.ok rs, s1) ∧
      rs.allowed = true)
    (hd : subCheck d now l w = (Except.ok r, d')) (hr : r.allowed = false) :
    CompositeLimiter.check_limit (pre ++ d :: post) now l w =
      (Except.ok { r with limit_type := "composite_" ++ r.limit_type },
       pre.map (fun s => (subCheck s now l w).2) ++ d' :: post) :=
  compositeGo_short_circuit now l w d post r d' hd hr pre [] hpre

/-- C7 witness: a composite of fixed-window, token-bucket (empty bucket,
denies) and sliding-window at a concrete call: the sliding window after the
denier keeps its state `[]`, the fixed window before it has consumed quota. -/
theorem c7_witness :
    CompositeLimiter.check_limit
        [.fixedWindow none,
         .tokenBucket 2 (some { tokens := 0, last_update := 0 }),
         .slidingWindow 10000 []] 0 5 10 =
      (Except.ok { allowed := false, remaining := 0, retry_after := some 2,
                   limit_type := "composite_token_bucket" },
       [.fixedWindow (some { count := 1, window_start := 0 }),
        .tokenBucket 2 (some { tokens := 0, last_update := 0 }),
        .slidingWindow 10000 []]) := by
  have h := c7_composite_short_circuit [.fixedWindow none]
    (.tokenBucket 2 (some { tokens := 0, last_update := 0 }))
    [.slidingWindow 10000 []] 0 5 10
    { allowed := false, remaining := 0, retry_after := some 2,
      limit_type := "token_bucket" }
    (.tokenBucket 2 (some { tokens := 0, last_update := 0 }))
    (by
      intro s hs
      simp only [List.mem_singleton] at hs
      subst hs
      exact ⟨{ allowed := true, remaining := 4, reset_time := some 10,
               limit_type := "fixed_window" },
             .fixedWindow (some { count := 1, window_start := 0 }),
             by norm_num [subCheck, FixedWindowLimiter.check_limit], rfl⟩)
    (by norm_num [subCheck, TokenBucketLimiter.check_limit, pyInt])
    rfl
  rw [List.cons_append, List.nil_append] at h
  rw [h]
  norm_num [subCheck, FixedWindowLimiter.check_limit]
  rfl

/-! ### C8: sliding window denial fields -/

/-- The front survivor of the trim loop is strictly inside the window. -/
lemma slidingTrim_head_gt (ws : ℚ) :
    ∀ (l : List ℚ) (t : ℚ) (rest : List ℚ),
      slidingTrim ws l = t :: rest → ws < t
  | [], t, rest, h => by simp [slidingTrim] at h
  | a :: l', t, rest, h => by
    rw [slidingTrim] at h
    split_ifs at h with ha
    · exact slidingTrim_head_gt ws l' t rest h
    · injection h with h1 h2
      subst h1
      exact lt_of_not_le ha

/-- C8: every denied sliding-window Decision has
`retry_after = max(0, oldest + window - now) + 1/1000` (the code's
`max(0, oldest + window - now + 0.001)` coincides because the retained
oldest timestamp is strictly within the trailing window), which is strictly
positive, and `reset_time = oldest + window`; the stored log is the trimmed
list headed by `oldest`. -/
theorem c8_sliding_denial (maxE : ℕ) (st : List ℚ) (now : ℚ)
    (limit window : ℤ) (r : RateLimitResult) (st' : List ℚ)
    (oldest : ℚ) (rest : List ℚ)
    (h : SlidingWindowLimiter.check_limit maxE st now limit window =
      (Except.ok r, st'))
    (hr : r.allowed = false)
    (htrim : slidingTrim (now - (window : ℚ)) st = oldest :: rest) :
    r.retry_after = some (max 0 (oldest + (window : ℚ) - now) + 1/1000) ∧
    0 < max 0 (oldest + (window : ℚ) - now) + 1/1000 ∧
    r.reset_time = some (oldest + (window : ℚ)) ∧
    st' = oldest :: rest ∧
    now - (window : ℚ) < oldest := by
  have holdest : now - (window : ℚ) < oldest :=
    slidingTrim_head_gt _ st oldest rest htrim
  have hpos : 0 < oldest + (window : ℚ) - now := by linarith
  unfold SlidingWindowLimiter.check_limit at h
  dsimp only at h
  rw [htrim] at h
  split at h
  · have h1 := (Prod.ext_iff.mp h).1
    simp only [Except.ok.injEq] at h1
    rw [← h1] at hr
    simp at hr
  · have h1 := (Prod.ext_iff.mp h).1
    have h2 := (Prod.ext_iff.mp h).2
    simp only [Except.ok.injEq] at h1
    subst h1
    dsimp only at h2 ⊢
    have hmax : max 0 (oldest + (window : ℚ) - now + 1/1000) =
        max 0 (oldest + (window : ℚ) - now) + 1/1000 := by
      rw [max_eq_right (by linarith), max_eq_right (le_of_lt hpos)]
    refine ⟨by rw [hmax], by positivity, rfl, h2.symm, holdest⟩

/-- C8 witness: the denial at `t=3` after grants at `t=0,1,2`
(`limit=3, window=10`): `retry_after = 7.001 > 0`, `reset_time = 10`. -/
theorem c8_witness :
    (some (7 + 1/1000) : Option ℚ) =
      some (max 0 ((0 : ℚ) + ((10 : ℤ) : ℚ) - 3) + 1/1000) ∧
    (0 : ℚ) < max 0 ((0 : ℚ) + ((10 : ℤ) : ℚ) - 3) + 1/1000 ∧
    (some 10 : Option ℚ) = some ((0 : ℚ) + ((10 : ℤ) : ℚ)) ∧
    ([0, 1, 2] : List ℚ) = 0 :: [1, 2] ∧
    (3 : ℚ) - ((10 : ℤ) : ℚ) < 0 :=
  c8_sliding_denial 10000 [0, 1, 2] 3 3 10
    { allowed := false, remaining := 0, reset_time := some 10,
      retry_after := some (7 + 1/1000), limit_type := "sliding_window" }
    [0, 1, 2] 0 [1, 2]
    (by norm_num [SlidingWindowLimiter.check_limit, slidingTrim])
    rfl
    (by norm_num [slidingTrim])

/-! ### C9: sliding window memory bound -/

/-- The trim loop only removes entries. -/
lemma slidingTrim_length_le (ws : ℚ) :
    ∀ l : List ℚ, (slidingTrim ws l).length ≤ l.length
  | [] => le_refl _
  | a :: l' => by
    rw [slidingTrim]
    split_ifs
    · exact le_trans (slidingTrim_length_le ws l') (Nat.le_succ _)
    · exact le_refl _

/-- One check preserves the `max_entries_per_key` bound on the stored log. -/
lemma sliding_check_length (maxE : ℕ) (st : List ℚ) (now : ℚ)
    (limit window : ℤ) (hlen : st.length ≤ maxE) :
    ((SlidingWindowLimiter.check_limit maxE st now limit window).2).length ≤
      maxE := by
  have htr := slidingTrim_length_le (now - (window : ℚ)) st
  unfold SlidingWindowLimiter.check_limit
  dsimp only
  split
  · split_ifs with hcap
    · simp only [List.length_tail, List.length_append, List.length_singleton]
      omega
    · simp only [List.length_append, List.length_singleton] at hcap ⊢
      omega
  · split
    · dsimp only
      omega
    · rename_i oldest rest heq
      dsimp only
      rw [← heq]
      omega

/-- Any sequence of checks starting from a fresh key keeps the bound. -/
lemma sliding_run_length (maxE : ℕ) (limit window : ℤ) :
    ∀ (times : List ℚ) (st : List ℚ), st.length ≤ maxE →
      ((SlidingWindowLimiter.run maxE st times limit window).2).length ≤ maxE
  | [], st, h => h
  | t :: ts, st, h => by
    rw [SlidingWindowLimiter.run]
    dsimp only
    exact sliding_run_length maxE limit window ts _
      (sliding_check_length maxE st t limit window h)

/-- C9: (i) a single check preserves `length ≤ max_entries_per_key`;
(ii) hence after any sequence of checks on a fresh key the stored timestamp
log never exceeds `max_entries_per_key`; (iii) when the append would exceed
the cap, the final log is `(trimmed ++ [now]).tail`, i.e. exactly the oldest
(front) entry is dropped. -/
theorem c9_memory_bound :
    (∀ (maxE : ℕ) (st : List ℚ) (now : ℚ) (limit window : ℤ),
      st.length ≤ maxE →
      ((SlidingWindowLimiter.check_limit maxE st now limit window).2).length ≤
        maxE) ∧
    (∀ (maxE : ℕ) (times : List ℚ) (limit window : ℤ),
      ((SlidingWindowLimiter.run maxE [] times limit window).2).length ≤
        maxE) ∧
    (∀ (maxE : ℕ) (st : List ℚ) (now : ℚ) (limit window : ℤ),
      ((slidingTrim (now - (window : ℚ)) st).length : ℤ) < limit →
      maxE < (slidingTrim (now - (window : ℚ)) st ++ [now]).length →
      (SlidingWindowLimiter.check_limit maxE st now limit window).2 =
        (slidingTrim (now - (window : ℚ)) st ++ [now]).tail) := by
  refine ⟨sliding_check_length, ?_, ?_⟩
  · intro maxE times limit window
    exact sliding_run_length maxE limit window times [] (Nat.zero_le _)
  · intro maxE st now limit window hcount hcap
    unfold SlidingWindowLimiter.check_limit
    dsimp only
    rw [if_pos hcount]
    dsimp only
    rw [if_pos hcap]

/-- C9 witness: with `max_entries_per_key = 2` and log `[1, 2]`, an allowed
check at `t=3` drops the oldest entry and keeps the length at 2. -/
theorem c9_witness :
    ((SlidingWindowLimiter.check_limit 2 [1, 2] 3 5 10).2).length ≤ 2 ∧
    (SlidingWindowLimiter.check_limit 2 [1, 2] 3 5 10).2 =
      (slidingTrim ((3 : ℚ) - ((10 : ℤ) : ℚ)) [1, 2] ++ [3]).tail :=
  ⟨c9_memory_bound.1 2 [1, 2] 3 5 10 (by norm_num),
   c9_memory_bound.2.2 2 [1, 2] 3 5 10 (by norm_num [slidingTrim])
     (by norm_num [slidingTrim])⟩

/-! ### C10: composite all-allow result -/

/-- The composite walk, when every sub-strategy allows, accumulates exactly
the sub-results and ends with the `min`-of-`remaining` Decision. -/
lemma compositeGo_all_allowed (now : ℚ) (l w : ℤ) :
    ∀ (subs : List SubLimiter) (rs : List RateLimitResult)
      (acc : List RateLimitResult),
      subs.map (fun s => (subCheck s now l w).1) = rs.map Except.ok →
      (∀ x ∈ rs, x.allowed = true) →
      compositeGo now l w subs acc =
        ((match minRemaining (acc ++ rs) with
          | none => Except.error PyErr.valueError
          | some m => Except.ok { allowed := true, remaining := m,
                                  limit_type := "composite" }),
         subs.map (fun s => (subCheck s now l w).2))
  | [], rs, acc, hres, hall => by
    have hrs : rs = [] := by
      cases rs with
      | nil => rfl
      | cons a as => simp at hres
    subst hrs
    rw [List.append_nil, compositeGo]
    cases hmin : minRemaining acc <;> simp [hmin]
  | s :: rest, rs, acc, hres, hall => by
    cases rs with
    | nil => simp at hres
    | cons r0 rs' =>
      simp only [List.map_cons, List.cons.injEq] at hres
      obtain ⟨hr0, hrest⟩ := hres
      have hall0 : r0.allowed = true := hall r0 (List.mem_cons_self _ _)
      have hsc : subCheck s now l w = (Except.ok r0, (subCheck s now l w).2) :=
        Prod.ext_iff.mpr ⟨hr0, rfl⟩
      rw [compositeGo, hsc]
      dsimp only
      rw [if_pos hall0]
      rw [compositeGo_all_allowed now l w rest rs' (acc ++ [r0]) hrest
        (fun x hx => hall x (List.mem_cons_of_mem _ hx))]
      dsimp only
      rw [List.append_assoc]
      simp only [List.singleton_append, List.map_cons]

/-- C10: when every sub-strategy allows (sub-results `rs`), the composite
Decision is `allowed=true`, `remaining` the minimum across `rs`,
`limit_type = "composite"`, and `reset_time`/`retry_after` are `none` — the
sub-results' reset information is discarded — while every sub-strategy's
state is updated. -/
theorem c10_composite_all_allow (subs : List SubLimiter) (now : ℚ) (l w : ℤ)
    (rs : List RateLimitResult) (m : ℤ)
    (hres : subs.map (fun s => (subCheck s now l w).1) = rs.map Except.ok)
    (hall : ∀ x ∈ rs, x.allowed = true)
    (hmin : minRemaining rs = some m) :
    CompositeLimiter.check_limit subs now l w =
      (Except.ok { allowed := true, remaining := m, reset_time := none,
                   retry_after := none, limit_type := "composite" },
       subs.map (fun s => (subCheck s now l w).2)) := by
  have h := compositeGo_all_allowed now l w subs rs [] hres hall
  rw [List.nil_append] at h
  rw [CompositeLimiter.check_limit, h, hmin]

/-- C10 witness: a sliding-window plus fixed-window composite where both
allow with `remaining = 2` and `reset_time = some 10`; the composite reports
`remaining = 2` but `reset_time = none`. -/
theorem c10_witness :
    CompositeLimiter.check_limit
        [.slidingWindow 10000 [], .fixedWindow none] 0 3 10 =
      (Except.ok { allowed := true, remaining := 2, reset_time := none,
                   retry_after := none, limit_type := "composite" },
       [.slidingWindow 10000 [0],
        .fixedWindow (some { count := 1, window_start := 0 })]) := by
  have h := c10_composite_all_allow
    [.slidingWindow 10000 [], .fixedWindow none] 0 3 10
    [{ allowed := true, remaining := 2, reset_time := some 10,
       limit_type := "sliding_window" },
     { allowed := true, remaining := 2, reset_time := some 10,
       limit_type := "fixed_window" }] 2
    (by norm_num [subCheck, SlidingWindowLimiter.check_limit, slidingTrim,
      FixedWindowLimiter.check_limit])
    (by
      intro x hx
      simp only [List.mem_cons, List.mem_singleton, List.not_mem_nil,
        or_false] at hx
      rcases hx with rfl | rfl <;> rfl)
    (by simp [minRemaining])
  rw [h]
  norm_num [subCheck, SlidingWindowLimiter.check_limit, slidingTrim,
    FixedWindowLimiter.check_limit]

end RatelimiterExt
